import Mathlib

/-!
Shallow embedding of `BottomTabView` (src/unnamed/part_000) from the
react-navigation bottom-tabs view layer.

The component renders one screen per tab route.  We model:
  * the options/route/navigation-state data carried by props,
  * the lazy / unmountOnBlur mount decision of the per-route render body,
  * the `loaded` list state and its update performed during render,
  * the per-tab activity state (inactive / transitioning / on-top) and the
    `interpolate` node driving it,
  * the `animateToIndex` effect as the list of animation commands it starts,
  * tab-bar position, insets resolution and tab-bar height plumbing.

Numbers that are JS floats in the source are modelled as rationals; the
constant `EPSILON = 1e-5` is exact as `1 / 100000`.
-/

namespace BottomTabs

/-- The `animation` option value: a member of the string union
`'fade' | 'shift' | 'none'` used to index `NAMED_TRANSITIONS_PRESETS`. -/
inductive AnimationName
  | fade
  | shift
  | none
deriving DecidableEq, Repr

/-- The `tabBarPosition` option value: `'top' | 'bottom' | 'left' | 'right'`. -/
inductive TabBarPosition
  | top
  | bottom
  | left
  | right
deriving DecidableEq, Repr

/-- The `animation` field of a transition spec: which `Animated` factory is
invoked (`Animated.timing` or `Animated.spring`). -/
inductive AnimatedFactory
  | timing
  | spring
deriving DecidableEq, Repr

/-- Configuration object of a transition spec.  Only the duration is
relevant to the claims; further config fields would not change any theorem. -/
structure AnimConfig where
  duration : Option ℚ
deriving DecidableEq, Repr

/-- A transition spec `{ animation, config }` as consumed by
`Animated[spec.animation](value, {...spec.config, toValue, ...})`. -/
structure TransitionSpec where
  animation : AnimatedFactory
  config : AnimConfig
deriving DecidableEq, Repr

/-- A transition preset `{ sceneStyleInterpolator, transitionSpec }`.  The
interpolator's content never feeds any claim, so it is kept abstract as a
unit marker recording only presence or absence. -/
structure TransitionPreset where
  sceneStyleInterpolator : Option Unit
  transitionSpec : Option TransitionSpec
deriving DecidableEq, Repr

/-- A route of the navigation state (only `key` and `name` are read). -/
structure Route where
  key : String
  name : String
deriving DecidableEq, Repr

/-- The slice of `BottomTabNavigationOptions` read by `BottomTabView`.
Absent (undefined) fields are `Option.none`.  `tabBarStyle` content is
irrelevant to every claim and is kept as a unit marker. -/
structure Options where
  lazy : Option Bool
  unmountOnBlur : Option Bool
  animation : Option AnimationName
  transitionSpec : Option TransitionSpec
  tabBarPosition : Option TabBarPosition
  freezeOnBlur : Option Bool
  tabBarStyle : Option Unit
deriving DecidableEq, Repr

/-- The `TabNavigationState` slice used by the component: `routes`,
the focused `index` and `preloadedRouteKeys`. -/
structure TabNavState where
  routes : List Route
  index : ℕ
  preloadedRouteKeys : List String
deriving DecidableEq, Repr

/-- The none transition spec
`{ animation: 'timing', config: { duration: 0 } }` from
`NAMED_TRANSITIONS_PRESETS.none`. -/
def noneTransitionSpec : TransitionSpec :=
  { animation := AnimatedFactory.timing, config := { duration := some 0 } }

/-- The `none` member of `NAMED_TRANSITIONS_PRESETS`. -/
def nonePreset : TransitionPreset :=
  { sceneStyleInterpolator := Option.none, transitionSpec := some noneTransitionSpec }

/-- `NAMED_TRANSITIONS_PRESETS`, parameterised by the `FadeTransition` and
`ShiftTransition` presets, which are imported from
`../TransitionConfigs/TransitionPresets` — a file that is not part of the
sources; every theorem quantifies over them. -/
def NAMED_TRANSITIONS_PRESETS (fade shift : TransitionPreset) :
    AnimationName → TransitionPreset
  | AnimationName.fade => fade
  | AnimationName.shift => shift
  | AnimationName.none => nonePreset

/-- `hasAnimation(options)`: if `animation` is set (all union members are
truthy strings) the result is `animation !== 'none'`; otherwise it is
`!transitionSpec`. -/
def hasAnimation (options : Options) : Bool :=
  match options.animation with
  | some a => a != AnimationName.none
  | Option.none => options.transitionSpec.isNone

/-- `EPSILON = 1e-5`. -/
def EPSILON : ℚ := 1 / 100000

/-- `STATE_INACTIVE = 0`. -/
def STATE_INACTIVE : ℚ := 0

/-- `STATE_TRANSITIONING_OR_BELOW_TOP = 1`. -/
def STATE_TRANSITIONING_OR_BELOW_TOP : ℚ := 1

/-- `STATE_ON_TOP = 2`. -/
def STATE_ON_TOP : ℚ := 2

/-- The `active` prop handed to `MaybeScreen`: either a constant number, or
an `interpolate` node over the route's animated value with three-point
input and output ranges and `extrapolate: 'extend'`. -/
inductive ActivityState
  | const (value : ℚ)
  | interpolated (i0 i1 i2 o0 o1 o2 : ℚ)
deriving DecidableEq, Repr

/-- The numbers an `ActivityState` declares: the constant itself, or the
members of the `outputRange` array of the interpolation node. -/
def ActivityState.declaredValues : ActivityState → List ℚ
  | ActivityState.const v => [v]
  | ActivityState.interpolated _ _ _ o0 o1 o2 => [o0, o1, o2]

/-- Evaluation of a three-point `interpolate` node with
`extrapolate: 'extend'`: piecewise linear through
`(i0, o0), (i1, o1), (i2, o2)`, extending the first segment below `i1` and
the last segment above it. -/
def interpolate3 (i0 i1 i2 o0 o1 o2 v : ℚ) : ℚ :=
  if v ≤ i1 then o0 + (v - i0) * (o1 - o0) / (i1 - i0)
  else o1 + (v - i1) * (o2 - o1) / (i2 - i1)

/-- Evaluation of an `ActivityState` at a value of the underlying animated
value (a constant ignores it). -/
def ActivityState.eval : ActivityState → ℚ → ℚ
  | ActivityState.const c, _ => c
  | ActivityState.interpolated i0 i1 i2 o0 o1 o2, v => interpolate3 i0 i1 i2 o0 o1 o2 v

/-- The `activityState` computed per route (lines 251-263): the focused
route gets `STATE_ON_TOP`; an unfocused route without animation gets
`STATE_INACTIVE`; an unfocused animated route gets the interpolation of its
animated value with input range `[0, 1 - EPSILON, 1]` and output range
`[STATE_TRANSITIONING_OR_BELOW_TOP, STATE_TRANSITIONING_OR_BELOW_TOP,
STATE_INACTIVE]`. -/
def activityState (isFocused animationEnabled : Bool) : ActivityState :=
  if isFocused then ActivityState.const STATE_ON_TOP
  else if animationEnabled then
    ActivityState.interpolated 0 (1 - EPSILON) 1
      STATE_TRANSITIONING_OR_BELOW_TOP STATE_TRANSITIONING_OR_BELOW_TOP STATE_INACTIVE
  else ActivityState.const STATE_INACTIVE

/-- Fully resolved safe-area insets (every side a number). -/
structure Insets where
  top : ℚ
  right : ℚ
  bottom : ℚ
  left : ℚ
deriving DecidableEq, Repr

/-- Partial insets: an object whose four sides may each be undefined, as in
the `safeAreaInsets` prop and the value of `SafeAreaInsetsContext`. -/
structure PartialInsets where
  top : Option ℚ
  right : Option ℚ
  bottom : Option ℚ
  left : Option ℚ
deriving DecidableEq, Repr

/-- A frame `{ width, height }` (`SafeAreaProviderCompat.initialMetrics.frame`
and the `dimensions`/`layout` arguments). -/
structure Frame where
  width : ℚ
  height : ℚ
deriving DecidableEq, Repr

/-- The insets handed to the tab bar (renderTabBar, lines 163-168): each
side is `safeAreaInsets?.side ?? insets?.side ?? 0`, where `safeAreaInsets`
is the prop and `insets` the context value. -/
def resolveInsets (safeAreaInsets contextInsets : Option PartialInsets) : Insets :=
  { top := ((safeAreaInsets.bind PartialInsets.top).getD
      ((contextInsets.bind PartialInsets.top).getD 0)),
    right := ((safeAreaInsets.bind PartialInsets.right).getD
      ((contextInsets.bind PartialInsets.right).getD 0)),
    bottom := ((safeAreaInsets.bind PartialInsets.bottom).getD
      ((contextInsets.bind PartialInsets.bottom).getD 0)),
    left := ((safeAreaInsets.bind PartialInsets.left).getD
      ((contextInsets.bind PartialInsets.left).getD 0)) }

/-- The object spread `{ ...initialMetrics.insets, ...props.safeAreaInsets }`
(lines 147-150): a present side of the partial prop overrides the
corresponding side of the full initial insets. -/
def mergeInsets (base : Insets) (overrides : Option PartialInsets) : Insets :=
  match overrides with
  | Option.none => base
  | some p =>
    { top := p.top.getD base.top,
      right := p.right.getD base.right,
      bottom := p.bottom.getD base.bottom,
      left := p.left.getD base.left }

/-- The props of `BottomTabView` relevant to the claims: the navigation
state, the descriptors (looked up by route key), and the `safeAreaInsets`
and `detachInactiveScreens` config props. -/
structure Props where
  state : TabNavState
  descriptors : String → Options
  safeAreaInsets : Option PartialInsets
  detachInactiveScreens : Option Bool

/-- The fallback route produced by an out-of-bounds
`state.routes[state.index]` access; the component assumes the index is
valid, and theorems needing the focused route carry that hypothesis. -/
def defaultRoute : Route := { key := "", name := "" }

/-- `state.routes[state.index].key` (line 80). -/
def focusedRouteKey (state : TabNavState) : String :=
  (state.routes.getD state.index defaultRoute).key

/-- The React state of the component: the `loaded` list and the measured
`tabBarHeight`. -/
structure ComponentState where
  loaded : List String
  tabBarHeight : ℚ
deriving DecidableEq, Repr

/-- The render-time `loaded` update (lines 87-90): append the focused route
key if it is not already in the list, otherwise leave the list unchanged. -/
def updateLoaded (loaded : List String) (focusedKey : String) : List String :=
  if loaded.contains focusedKey then loaded else loaded ++ [focusedKey]

/-- The argument object passed to `getTabBarHeight` when initialising the
`tabBarHeight` state (lines 141-153). -/
structure TabBarHeightArgs where
  state : TabNavState
  descriptors : String → Options
  dimensions : Frame
  layout : Frame
  insets : Insets
  style : Option Unit

/-- The initial component state: `loaded` starts as `[focusedRouteKey]`
(line 85) and `tabBarHeight` as `getTabBarHeight` of the initial-metrics
frame, the initial-metrics insets spread with the `safeAreaInsets` prop, a
layout of width `frame.width` and height `0`, and the focused route's
`tabBarStyle` (lines 141-153).  `getTabBarHeight` lives in
`./BottomTabBar`, which is not among the sources, so it is a parameter. -/
def initialComponentState (getTabBarHeight : TabBarHeightArgs → ℚ)
    (initialFrame : Frame) (initialInsets : Insets) (props : Props) : ComponentState :=
  { loaded := [focusedRouteKey props.state],
    tabBarHeight := getTabBarHeight
      { state := props.state,
        descriptors := props.descriptors,
        dimensions := initialFrame,
        layout := { width := initialFrame.width, height := 0 },
        insets := mergeInsets initialInsets props.safeAreaInsets,
        style := (props.descriptors (focusedRouteKey props.state)).tabBarStyle } }

/-- The effect of invoking the `setTabBarHeight` callback (provided to the
tab bar through `BottomTabBarHeightCallbackContext.Provider`, lines 195 and
300) with a measured height: the `tabBarHeight` state becomes that value. -/
def applyTabBarHeightCallback (s : ComponentState) (height : ℚ) : ComponentState :=
  { s with tabBarHeight := height }

/-- What a mounted route contributes to the render tree: the `MaybeScreen`
props and the `BottomTabBarHeightContext` value its subtree receives. -/
structure ScreenInfo where
  key : String
  focused : Bool
  zIndex : Int
  active : ActivityState
  enabled : Bool
  freezeOnBlur : Option Bool
  tabBarHeightValue : ℚ
deriving DecidableEq, Repr

/-- The body of `routes.map` (lines 204-297) for the route at `index`:
`Option.none` models the `return null` branches (unmountOnBlur on a blurred
route, and the lazy branch for a route never visited nor preloaded). -/
def renderScreen (stateIndex : ℕ) (preloadedRouteKeys loaded : List String)
    (descriptors : String → Options) (tabBarPosition : TabBarPosition)
    (tabBarHeight : ℚ) (detachInactiveScreens : Bool) (index : ℕ) (route : Route) :
    Option ScreenInfo :=
  let options := descriptors route.key
  let lazy := options.lazy.getD true
  let unmountOnBlur := options.unmountOnBlur.getD false
  let isFocused := stateIndex == index
  if unmountOnBlur && !isFocused then Option.none
  else if lazy && !(loaded.contains route.key) && !isFocused
      && !(preloadedRouteKeys.contains route.key) then Option.none
  else
    let animationEnabled := hasAnimation options
    some
      { key := route.key,
        focused := isFocused,
        zIndex := if isFocused then 0 else -1,
        active := activityState isFocused animationEnabled,
        enabled := detachInactiveScreens,
        freezeOnBlur := options.freezeOnBlur,
        tabBarHeightValue := if tabBarPosition = TabBarPosition.bottom then tabBarHeight else 0 }

/-- `renderScreens` maps `renderScreen` over the routes, threading the
position as `routes.map((route, index) => ...)` does. -/
def renderScreens (stateIndex : ℕ) (preloadedRouteKeys loaded : List String)
    (descriptors : String → Options) (tabBarPosition : TabBarPosition)
    (tabBarHeight : ℚ) (detachInactiveScreens : Bool) :
    ℕ → List Route → List (Option ScreenInfo)
  | _, [] => []
  | i, r :: rs =>
    renderScreen stateIndex preloadedRouteKeys loaded descriptors tabBarPosition
        tabBarHeight detachInactiveScreens i r ::
      renderScreens stateIndex preloadedRouteKeys loaded descriptors tabBarPosition
        tabBarHeight detachInactiveScreens (i + 1) rs

/-- The root container's style: `styles.left` (`flexDirection:
'row-reverse'`) when the tab bar is on the left, `styles.right`
(`flexDirection: 'row'`) when on the right, `null` otherwise
(lines 186-192, 308-314). -/
inductive FlexDirection
  | row
  | rowReverse
deriving DecidableEq, Repr

/-- The render result of `BottomTabView`: root style, whether the tab bar
is emitted before and after the screen container, the insets given to the
tab bar, the `MaybeScreenContainer` props, and one entry per route (with
`Option.none` for routes rendered as `null`). -/
structure RenderOutput where
  rootStyle : Option FlexDirection
  tabBarBeforeScreens : Bool
  tabBarAfterScreens : Bool
  tabBarInsets : Insets
  containerEnabled : Bool
  hasTwoStates : Bool
  screens : List (Option ScreenInfo)

/-- One render of `BottomTabView` given its props, the current React state
(`loaded`, `tabBarHeight`), the `SafeAreaInsetsContext` value and the
platform default for `detachInactiveScreens`. -/
def renderBottomTabView (props : Props) (s : ComponentState)
    (contextInsets : Option PartialInsets) (detachDefault : Bool) : RenderOutput :=
  let state := props.state
  let descriptors := props.descriptors
  let detachInactiveScreens := props.detachInactiveScreens.getD detachDefault
  let focusedKey := focusedRouteKey state
  let hasTwoStates := !(state.routes.any fun route => hasAnimation (descriptors route.key))
  let tabBarPosition := (descriptors focusedKey).tabBarPosition.getD TabBarPosition.bottom
  { rootStyle :=
      if tabBarPosition = TabBarPosition.left then some FlexDirection.rowReverse
      else if tabBarPosition = TabBarPosition.right then some FlexDirection.row
      else Option.none,
    tabBarBeforeScreens := tabBarPosition = TabBarPosition.top,
    tabBarAfterScreens := tabBarPosition ≠ TabBarPosition.top,
    tabBarInsets := resolveInsets props.safeAreaInsets contextInsets,
    containerEnabled := detachInactiveScreens,
    hasTwoStates := hasTwoStates,
    screens := renderScreens state.index state.preloadedRouteKeys s.loaded descriptors
      tabBarPosition s.tabBarHeight detachInactiveScreens 0 state.routes }

/-- One member of the `Animated.parallel` composite started by
`animateToIndex`: which animated value is driven (by route key), with which
transition spec, toward which target. -/
structure AnimationCommand where
  key : String
  spec : TransitionSpec
  toValue : Int
deriving DecidableEq, Repr

/-- The body of `state.routes.map` inside `animateToIndex` (lines 103-132):
`animation` defaults to `'none'`, `transitionSpec` defaults to the named
preset's spec; a route that is neither the previous nor the new focused
route has its spec replaced by `NAMED_TRANSITIONS_PRESETS.none.transitionSpec`;
a still-undefined spec falls back to the same; the target is `0` for the
focused index, `1` for a greater index and `-1` for a smaller one. -/
def routeAnimationCommand (fade shift : TransitionPreset) (stateIndex : ℕ)
    (descriptors : String → Options) (previousRouteKey focusedKey : String)
    (index : ℕ) (route : Route) : AnimationCommand :=
  let options := descriptors route.key
  let animation := options.animation.getD AnimationName.none
  let transitionSpec : Option TransitionSpec :=
    match options.transitionSpec with
    | some s => some s
    | Option.none => (NAMED_TRANSITIONS_PRESETS fade shift animation).transitionSpec
  let spec :=
    if route.key ≠ previousRouteKey ∧ route.key ≠ focusedKey then
      nonePreset.transitionSpec
    else transitionSpec
  let spec := spec.getD noneTransitionSpec
  let toValue : Int :=
    if index = stateIndex then 0 else if index ≥ stateIndex then 1 else -1
  { key := route.key, spec := spec, toValue := toValue }

/-- The list of animations started in parallel by `animateToIndex`
(lines 100-135), position-indexed like `state.routes.map`.  The
`.filter(Boolean)` of the source drops nothing, every element being an
object. -/
def animateToIndex (fade shift : TransitionPreset) (state : TabNavState)
    (descriptors : String → Options) (previousRouteKey focusedKey : String) :
    ℕ → List Route → List AnimationCommand
  | _, [] => []
  | i, r :: rs =>
    routeAnimationCommand fade shift state.index descriptors previousRouteKey focusedKey i r ::
      animateToIndex fade shift state descriptors previousRouteKey focusedKey (i + 1) rs

/-! Concrete fixtures used by the witnesses. -/

/-- A sample route. -/
def routeA : Route := { key := "a", name := "A" }

/-- Another sample route. -/
def routeB : Route := { key := "b", name := "B" }

/-- Options with every field undefined. -/
def emptyOptions : Options :=
  { lazy := Option.none, unmountOnBlur := Option.none, animation := Option.none,
    transitionSpec := Option.none, tabBarPosition := Option.none,
    freezeOnBlur := Option.none, tabBarStyle := Option.none }

/-- Options selecting the `'fade'` animation. -/
def fadeOptions : Options := { emptyOptions with animation := some AnimationName.fade }

/-- A sample two-route navigation state focused on the first route. -/
def stateAB : TabNavState :=
  { routes := [routeA, routeB], index := 0, preloadedRouteKeys := [] }

/-- Sample props over `stateAB` with empty options everywhere. -/
def propsAB : Props :=
  { state := stateAB, descriptors := fun _ => emptyOptions,
    safeAreaInsets := Option.none, detachInactiveScreens := Option.none }

/-- A sample component state where only route `"a"` is loaded. -/
def compStateA : ComponentState := { loaded := ["a"], tabBarHeight := 50 }

/-- A sample component state where both routes are loaded. -/
def compStateAB : ComponentState := { loaded := ["a", "b"], tabBarHeight := 50 }

/-- Sample props over `stateAB` where every route animates with `'fade'`. -/
def propsFade : Props :=
  { state := stateAB, descriptors := fun _ => fadeOptions,
    safeAreaInsets := Option.none, detachInactiveScreens := Option.none }

/-- The screen the unfocused, loaded route `"b"` of `propsFade` renders. -/
def infoB : ScreenInfo :=
  { key := "b", focused := false, zIndex := -1,
    active := ActivityState.interpolated 0 (1 - EPSILON) 1 1 1 0,
    enabled := true, freezeOnBlur := Option.none, tabBarHeightValue := 50 }

/-! Helper lemmas. -/

theorem renderScreens_get? (si : ℕ) (pk ld : List String) (d : String → Options)
    (p : TabBarPosition) (h : ℚ) (det : Bool) :
    ∀ (rs : List Route) (i0 j : ℕ),
      (renderScreens si pk ld d p h det i0 rs).get? j
        = (rs.get? j).map (fun r => renderScreen si pk ld d p h det (i0 + j) r)
  | [], i0, j => by simp [renderScreens]
  | r :: rs, i0, 0 => by simp [renderScreens]
  | r :: rs, i0, j + 1 => by
    have ih := renderScreens_get? si pk ld d p h det rs (i0 + 1) j
    simp only [renderScreens, List.get?, ih]
    have : i0 + 1 + j = i0 + (j + 1) := by omega
    rw [this]

theorem screens_get? (props : Props) (s : ComponentState) (ctx : Option PartialInsets)
    (dd : Bool) (i : ℕ) :
    (renderBottomTabView props s ctx dd).screens.get? i
      = (props.state.routes.get? i).map (fun r =>
          renderScreen props.state.index props.state.preloadedRouteKeys s.loaded
            props.descriptors
            ((props.descriptors (focusedRouteKey props.state)).tabBarPosition.getD
              TabBarPosition.bottom)
            s.tabBarHeight (props.detachInactiveScreens.getD dd) i r) := by
  have h := renderScreens_get? props.state.index props.state.preloadedRouteKeys s.loaded
    props.descriptors
    ((props.descriptors (focusedRouteKey props.state)).tabBarPosition.getD TabBarPosition.bottom)
    s.tabBarHeight (props.detachInactiveScreens.getD dd) props.state.routes 0 i
  simpa [renderBottomTabView] using h

theorem focusedRouteKey_eq {state : TabNavState} {froute : Route}
    (hf : state.routes.get? state.index = some froute) :
    focusedRouteKey state = froute.key := by
  simp [focusedRouteKey, List.getD_eq_getElem?_getD, ← List.get?_eq_getElem?, hf]

theorem renderScreen_eq_none_iff (si : ℕ) (pk ld : List String) (d : String → Options)
    (p : TabBarPosition) (h : ℚ) (det : Bool) (i : ℕ) (route : Route) :
    renderScreen si pk ld d p h det i route = Option.none ↔
      (((d route.key).unmountOnBlur.getD false = true ∧ si ≠ i)
        ∨ ((d route.key).lazy.getD true = true ∧ route.key ∉ ld ∧ si ≠ i
            ∧ route.key ∉ pk)) := by
  unfold renderScreen
  split_ifs <;>
    simp_all [Bool.and_eq_true, Bool.not_eq_true', List.elem_iff, beq_iff_eq] <;> tauto

theorem renderScreen_eq_some (si : ℕ) (pk ld : List String) (d : String → Options)
    (p : TabBarPosition) (h : ℚ) (det : Bool) (i : ℕ) (route : Route) (info : ScreenInfo)
    (hs : renderScreen si pk ld d p h det i route = some info) :
    info =
      { key := route.key,
        focused := si == i,
        zIndex := if (si == i : Bool) then 0 else -1,
        active := activityState (si == i) (hasAnimation (d route.key)),
        enabled := det,
        freezeOnBlur := (d route.key).freezeOnBlur,
        tabBarHeightValue := if p = TabBarPosition.bottom then h else 0 } := by
  simp only [renderScreen] at hs
  split_ifs at hs <;> simp_all

/-! Claim theorems. -/

/-- C9: `hasAnimation(options)` returns true exactly when either
`options.animation` is set and differs from `'none'`, or `options.animation`
is unset and `options.transitionSpec` is also unset; options with only a
custom `transitionSpec` count as not animated, empty options as animated. -/
theorem C9_hasAnimation (o : Options) :
    (hasAnimation o = true ↔
      ((∃ a, o.animation = some a ∧ a ≠ AnimationName.none) ∨
        (o.animation = Option.none ∧ o.transitionSpec = Option.none)))
    ∧ (o.animation = Option.none → ∀ s, o.transitionSpec = some s → hasAnimation o = false)
    ∧ (o.animation = Option.none → o.transitionSpec = Option.none → hasAnimation o = true) := by
  refine ⟨?_, ?_, ?_⟩
  · cases h : o.animation with
    | none => cases h2 : o.transitionSpec <;> simp [hasAnimation, h, h2]
    | some a => cases a <;> simp [hasAnimation, h]
  · intro h s h2
    simp [hasAnimation, h, h2]
  · intro h h2
    simp [hasAnimation, h, h2]

/-- Witness for C9 at options carrying only a custom transition spec. -/
theorem C9_hasAnimation_witness :
    hasAnimation
      { lazy := Option.none, unmountOnBlur := Option.none, animation := Option.none,
        transitionSpec := some noneTransitionSpec, tabBarPosition := Option.none,
        freezeOnBlur := Option.none, tabBarStyle := Option.none } = false :=
  (C9_hasAnimation _).2.1 rfl noneTransitionSpec rfl

/-- C10: the screen container is in two-state mode exactly when no route's
options satisfy `hasAnimation`; a single animated route forces
`hasTwoStates` to false. -/
theorem C10_hasTwoStates (props : Props) (s : ComponentState)
    (ctx : Option PartialInsets) (dd : Bool) :
    ((renderBottomTabView props s ctx dd).hasTwoStates = true ↔
      ∀ route ∈ props.state.routes, hasAnimation (props.descriptors route.key) = false)
    ∧ (∀ route ∈ props.state.routes, hasAnimation (props.descriptors route.key) = true →
        (renderBottomTabView props s ctx dd).hasTwoStates = false) := by
  constructor
  · simp [renderBottomTabView, List.any_eq_true]
  · intro route hmem hanim
    simp [renderBottomTabView, List.any_eq_true]
    exact ⟨route, hmem, hanim⟩

/-- Witness for C10 on a single animated route. -/
theorem C10_hasTwoStates_witness :
    (renderBottomTabView
        { state := { routes := [routeA], index := 0, preloadedRouteKeys := [] },
          descriptors := fun _ => fadeOptions,
          safeAreaInsets := Option.none, detachInactiveScreens := Option.none }
        compStateA Option.none true).hasTwoStates = false :=
  (C10_hasTwoStates _ _ _ _).2 routeA (by simp) rfl

/-- C2: the loaded list is monotone.  It starts as `[focusedRouteKey]`; a
render appends the focused key when absent and keeps the list unchanged
otherwise; no key is ever removed; and a route whose key is in the loaded
list, with `unmountOnBlur` not set to true, is rendered (not null) whether
or not it is focused. -/
theorem C2_loaded_monotone :
    (∀ (gth : TabBarHeightArgs → ℚ) (frame : Frame) (ins : Insets) (props : Props),
        (initialComponentState gth frame ins props).loaded = [focusedRouteKey props.state])
    ∧ (∀ (loaded : List String) (fk : String), fk ∈ updateLoaded loaded fk)
    ∧ (∀ (loaded : List String) (fk : String), fk ∉ loaded →
        updateLoaded loaded fk = loaded ++ [fk])
    ∧ (∀ (loaded : List String) (fk : String), fk ∈ loaded → updateLoaded loaded fk = loaded)
    ∧ (∀ (loaded : List String) (fk k : String), k ∈ loaded → k ∈ updateLoaded loaded fk)
    ∧ (∀ (props : Props) (s : ComponentState) (ctx : Option PartialInsets) (dd : Bool)
        (i : ℕ) (route : Route),
        props.state.routes.get? i = some route →
        route.key ∈ s.loaded →
        (props.descriptors route.key).unmountOnBlur.getD false = false →
        ∃ info, (renderBottomTabView props s ctx dd).screens.get? i = some (some info)) := by
  refine ⟨fun _ _ _ _ => rfl, ?_, ?_, ?_, ?_, ?_⟩
  · intro loaded fk
    unfold updateLoaded
    split
    · next hc => exact List.elem_iff.mp hc
    · simp
  · intro loaded fk h'
    rw [updateLoaded, if_neg fun hc => h' (List.elem_iff.mp hc)]
  · intro loaded fk h'
    rw [updateLoaded, if_pos (List.elem_iff.mpr h')]
  · intro loaded fk k hk
    unfold updateLoaded
    split
    · exact hk
    · simp [hk]
  · intro props s ctx dd i route hroute hmem hub
    have hc : s.loaded.contains route.key = true := List.elem_iff.mpr hmem
    rw [screens_get?, hroute]
    simp [renderScreen, hub, hc]
    intro _ h2 _
    exact absurd hmem h2

/-- Witness for C2: in a two-route state focused on the first route, the
second route, already in the loaded list and without `unmountOnBlur`, is
rendered. -/
theorem C2_loaded_monotone_witness :
    ∃ info,
      (renderBottomTabView propsAB compStateAB Option.none true).screens.get? 1
        = some (some info) :=
  C2_loaded_monotone.2.2.2.2.2 propsAB compStateAB Option.none true 1 routeB rfl
    (by simp [routeB, compStateAB]) rfl

/-- C1: with `unmountOnBlur` not applying to the route, `BottomTabView`
renders null for the route exactly when `lazy` (default true) holds, its
key is not in the loaded list, it is not the focused route, and its key is
not in `state.preloadedRouteKeys`. -/
theorem C1_lazy_defers_first_mount (props : Props) (s : ComponentState)
    (ctx : Option PartialInsets) (dd : Bool) (i : ℕ) (route : Route)
    (hroute : props.state.routes.get? i = some route)
    (hnb : ¬((props.descriptors route.key).unmountOnBlur.getD false = true
        ∧ props.state.index ≠ i)) :
    ((renderBottomTabView props s ctx dd).screens.get? i = some Option.none ↔
      ((props.descriptors route.key).lazy.getD true = true
        ∧ route.key ∉ s.loaded
        ∧ props.state.index ≠ i
        ∧ route.key ∉ props.state.preloadedRouteKeys)) := by
  rw [screens_get?, hroute]
  simp only [Option.map_some', Option.some.injEq, renderScreen_eq_none_iff]
  tauto

/-- Witness for C1: the unfocused, unloaded, unpreloaded second route of
the sample state renders as null. -/
theorem C1_lazy_defers_first_mount_witness :
    (renderBottomTabView propsAB compStateA Option.none true).screens.get? 1
      = some Option.none :=
  (C1_lazy_defers_first_mount propsAB compStateA Option.none true 1 routeB rfl
      (by decide)).mpr (by decide)

/-- C5: a route with `unmountOnBlur` set to true renders as null whenever
it is not focused, and the focused route's screen is always rendered. -/
theorem C5_unmountOnBlur (props : Props) (s : ComponentState)
    (ctx : Option PartialInsets) (dd : Bool) (i : ℕ) (route : Route)
    (hroute : props.state.routes.get? i = some route) :
    ((props.descriptors route.key).unmountOnBlur = some true → props.state.index ≠ i →
        (renderBottomTabView props s ctx dd).screens.get? i = some Option.none)
    ∧ (props.state.index = i →
        ∃ info, (renderBottomTabView props s ctx dd).screens.get? i = some (some info)) := by
  constructor
  · intro hub hne
    rw [screens_get?, hroute]
    simp only [Option.map_some', Option.some.injEq, renderScreen_eq_none_iff]
    exact Or.inl ⟨by simp [hub], hne⟩
  · intro heq
    rw [screens_get?, hroute]
    simp [renderScreen, heq]

/-- Witness for C5: the focused first route of the sample state is always
rendered. -/
theorem C5_unmountOnBlur_witness :
    ∃ info,
      (renderBottomTabView propsAB compStateA Option.none true).screens.get? 0
        = some (some info) :=
  (C5_unmountOnBlur propsAB compStateA Option.none true 0 routeA rfl).2 rfl

theorem activityState_declaredValues (b1 b2 : Bool) :
    ∀ q ∈ (activityState b1 b2).declaredValues, q = 0 ∨ q = 1 ∨ q = 2 := by
  cases b1 <;> cases b2 <;>
    simp [activityState, ActivityState.declaredValues, STATE_INACTIVE,
      STATE_TRANSITIONING_OR_BELOW_TOP, STATE_ON_TOP]

/-- C3: the per-tab activity flag is the three-value state: the focused
route gets the constant `2`; an unfocused non-animated route gets the
constant `0`; an unfocused animated route gets the interpolation with input
range `[0, 1 - EPSILON, 1]` and output range `[1, 1, 0]`, which evaluates
to `1` on `[0, 1 - EPSILON]` and to `0` at `1`; every value the flag
declares is `0`, `1` or `2`. -/
theorem C3_activity_state (props : Props) (s : ComponentState) (ctx : Option PartialInsets)
    (dd : Bool) (i : ℕ) (route : Route) (info : ScreenInfo)
    (hroute : props.state.routes.get? i = some route)
    (hin : (renderBottomTabView props s ctx dd).screens.get? i = some (some info)) :
    (props.state.index = i → info.active = ActivityState.const 2)
    ∧ (props.state.index ≠ i → hasAnimation (props.descriptors route.key) = false →
        info.active = ActivityState.const 0)
    ∧ (props.state.index ≠ i → hasAnimation (props.descriptors route.key) = true →
        info.active = ActivityState.interpolated 0 (1 - EPSILON) 1 1 1 0)
    ∧ (∀ q ∈ info.active.declaredValues, q = 0 ∨ q = 1 ∨ q = 2)
    ∧ (∀ v : ℚ, 0 ≤ v → v ≤ 1 - EPSILON →
        (ActivityState.interpolated 0 (1 - EPSILON) 1 1 1 0).eval v = 1)
    ∧ (ActivityState.interpolated 0 (1 - EPSILON) 1 1 1 0).eval 1 = 0 := by
  rw [screens_get?, hroute] at hin
  simp only [Option.map_some'] at hin
  have hs := Option.some_inj.mp hin
  have hrec := renderScreen_eq_some _ _ _ _ _ _ _ _ _ _ hs
  refine ⟨?_, ?_, ?_, ?_, ?_, ?_⟩
  · intro heq
    rw [hrec]
    simp [activityState, heq, STATE_ON_TOP]
  · intro hne hanim
    rw [hrec]
    simp [activityState, beq_eq_false_iff_ne.mpr hne, hanim, STATE_INACTIVE]
  · intro hne hanim
    rw [hrec]
    simp [activityState, beq_eq_false_iff_ne.mpr hne, hanim, STATE_INACTIVE,
      STATE_TRANSITIONING_OR_BELOW_TOP]
  · rw [hrec]
    exact activityState_declaredValues _ _
  · intro v h0 hv
    simp [ActivityState.eval, interpolate3, hv]
  · norm_num [ActivityState.eval, interpolate3, EPSILON]

/-- Witness for C3: the unfocused animated route `"b"` of `propsFade`
receives the `[0, 1 - EPSILON, 1] → [1, 1, 0]` interpolation. -/
theorem C3_activity_state_witness :
    infoB.active = ActivityState.interpolated 0 (1 - EPSILON) 1 1 1 0 :=
  (C3_activity_state propsFade compStateAB Option.none true 1 routeB infoB rfl
      rfl).2.2.1 (by decide) rfl

theorem animateToIndex_get? (fade shift : TransitionPreset) (state : TabNavState)
    (descriptors : String → Options) (prev foc : String) :
    ∀ (rs : List Route) (i0 j : ℕ),
      (animateToIndex fade shift state descriptors prev foc i0 rs).get? j
        = (rs.get? j).map (fun r =>
            routeAnimationCommand fade shift state.index descriptors prev foc (i0 + j) r)
  | [], i0, j => by simp [animateToIndex]
  | r :: rs, i0, 0 => by simp [animateToIndex]
  | r :: rs, i0, j + 1 => by
    have ih := animateToIndex_get? fade shift state descriptors prev foc rs (i0 + 1) j
    simp only [animateToIndex, List.get?, ih]
    have : i0 + 1 + j = i0 + (j + 1) := by omega
    rw [this]

/-- C4: `animateToIndex` starts, for the route at position `i`, an
animation of that route's animated value toward `0` when `i` is the
focused index, `1` when it is greater and `-1` when it is smaller; a route
that is neither the previously focused nor the newly focused one gets the
zero-duration `'none'` spec (timing with duration 0). -/
theorem C4_animate_to_index (fade shift : TransitionPreset) (state : TabNavState)
    (descriptors : String → Options) (prev foc : String) (i : ℕ) (route : Route)
    (cmd : AnimationCommand)
    (hroute : state.routes.get? i = some route)
    (hcmd : (animateToIndex fade shift state descriptors prev foc 0 state.routes).get? i
      = some cmd) :
    cmd.key = route.key
    ∧ cmd.toValue = (if i = state.index then 0 else if i > state.index then 1 else -1)
    ∧ (route.key ≠ prev → route.key ≠ foc →
        cmd.spec = noneTransitionSpec
        ∧ noneTransitionSpec.animation = AnimatedFactory.timing
        ∧ noneTransitionSpec.config.duration = some 0) := by
  rw [animateToIndex_get?, hroute] at hcmd
  simp only [Option.map_some'] at hcmd
  have hc := Option.some_inj.mp hcmd
  subst hc
  refine ⟨rfl, ?_, ?_⟩
  · simp only [routeAnimationCommand]
    split_ifs <;> omega
  · intro h1 h2
    refine ⟨?_, rfl, rfl⟩
    simp [routeAnimationCommand, h1, h2, nonePreset]

/-- The command `animateToIndex` produces for route `"b"` when the focus
stays on `"a"`. -/
def cmdB : AnimationCommand := { key := "b", spec := noneTransitionSpec, toValue := 1 }

/-- Witness for C4: route `"b"`, involved in no transition, is driven with
the zero-duration timing spec. -/
theorem C4_animate_to_index_witness :
    cmdB.spec = noneTransitionSpec
    ∧ noneTransitionSpec.animation = AnimatedFactory.timing
    ∧ noneTransitionSpec.config.duration = some 0 :=
  (C4_animate_to_index nonePreset nonePreset stateAB (fun _ => emptyOptions) "a" "a" 1 routeB
      cmdB rfl rfl).2.2 (by decide) (by decide)

/-- Options placing the tab bar on the left. -/
def leftOptions : Options := { emptyOptions with tabBarPosition := some TabBarPosition.left }

/-- Sample props over `stateAB` whose tab bar sits on the left. -/
def propsLeft : Props :=
  { state := stateAB, descriptors := fun _ => leftOptions,
    safeAreaInsets := Option.none, detachInactiveScreens := Option.none }

/-- C6: the tab bar is emitted before the screen container exactly when the
focused route's `tabBarPosition` (default `'bottom'`) is `'top'`, and after
it otherwise; the root container style is `row-reverse` for `'left'`,
`row` for `'right'` and null for `'top'` or `'bottom'`. -/
theorem C6_tab_bar_placement (props : Props) (s : ComponentState)
    (ctx : Option PartialInsets) (dd : Bool) (froute : Route)
    (hf : props.state.routes.get? props.state.index = some froute) :
    ((renderBottomTabView props s ctx dd).tabBarBeforeScreens = true ↔
        (props.descriptors froute.key).tabBarPosition.getD TabBarPosition.bottom
          = TabBarPosition.top)
    ∧ ((renderBottomTabView props s ctx dd).tabBarAfterScreens = true ↔
        ¬(props.descriptors froute.key).tabBarPosition.getD TabBarPosition.bottom
          = TabBarPosition.top)
    ∧ ((props.descriptors froute.key).tabBarPosition.getD TabBarPosition.bottom
          = TabBarPosition.left →
        (renderBottomTabView props s ctx dd).rootStyle = some FlexDirection.rowReverse)
    ∧ ((props.descriptors froute.key).tabBarPosition.getD TabBarPosition.bottom
          = TabBarPosition.right →
        (renderBottomTabView props s ctx dd).rootStyle = some FlexDirection.row)
    ∧ ((props.descriptors froute.key).tabBarPosition.getD TabBarPosition.bottom
          = TabBarPosition.top
        ∨ (props.descriptors froute.key).tabBarPosition.getD TabBarPosition.bottom
          = TabBarPosition.bottom →
        (renderBottomTabView props s ctx dd).rootStyle = Option.none) := by
  have hk := focusedRouteKey_eq hf
  cases hp : (props.descriptors froute.key).tabBarPosition.getD TabBarPosition.bottom <;>
    simp_all [renderBottomTabView, hk, hp]

/-- Witness for C6: with the tab bar on the left, the root style is
`row-reverse`. -/
theorem C6_tab_bar_placement_witness :
    (renderBottomTabView propsLeft compStateA Option.none true).rootStyle
      = some FlexDirection.rowReverse :=
  (C6_tab_bar_placement propsLeft compStateA Option.none true routeA rfl).2.2.1 rfl

/-- The screen the focused route `"a"` of `propsAB` renders. -/
def infoA : ScreenInfo :=
  { key := "a", focused := true, zIndex := 0,
    active := ActivityState.const STATE_ON_TOP,
    enabled := true, freezeOnBlur := Option.none, tabBarHeightValue := 50 }

/-- C7: a rendered screen receives the measured `tabBarHeight` through
`BottomTabBarHeightContext` exactly when `tabBarPosition` is `'bottom'`
and `0` otherwise; the height state is initialised by `getTabBarHeight`
from the initial frame and merged insets; invoking the `setTabBarHeight`
callback with a measured height makes it the new height state. -/
theorem C7_tab_bar_height (props : Props) (s : ComponentState) (ctx : Option PartialInsets)
    (dd : Bool) (i : ℕ) (route : Route) (info : ScreenInfo)
    (gth : TabBarHeightArgs → ℚ) (frame : Frame) (ins : Insets) (q : ℚ)
    (hroute : props.state.routes.get? i = some route)
    (hin : (renderBottomTabView props s ctx dd).screens.get? i = some (some info)) :
    ((props.descriptors (focusedRouteKey props.state)).tabBarPosition.getD
        TabBarPosition.bottom = TabBarPosition.bottom →
      info.tabBarHeightValue = s.tabBarHeight)
    ∧ ((props.descriptors (focusedRouteKey props.state)).tabBarPosition.getD
        TabBarPosition.bottom ≠ TabBarPosition.bottom →
      info.tabBarHeightValue = 0)
    ∧ ((initialComponentState gth frame ins props).tabBarHeight
        = gth { state := props.state, descriptors := props.descriptors, dimensions := frame,
                layout := { width := frame.width, height := 0 },
                insets := mergeInsets ins props.safeAreaInsets,
                style := (props.descriptors (focusedRouteKey props.state)).tabBarStyle })
    ∧ (applyTabBarHeightCallback s q).tabBarHeight = q
    ∧ (applyTabBarHeightCallback s q).loaded = s.loaded := by
  rw [screens_get?, hroute] at hin
  simp only [Option.map_some'] at hin
  have hrec := renderScreen_eq_some _ _ _ _ _ _ _ _ _ _ (Option.some_inj.mp hin)
  refine ⟨?_, ?_, rfl, rfl, rfl⟩
  · intro hp
    rw [hrec]
    simp [hp]
  · intro hp
    rw [hrec]
    simp [hp]

/-- Witness for C7: with the default bottom tab bar, the focused screen of
the sample props receives the current height `50`. -/
theorem C7_tab_bar_height_witness :
    infoA.tabBarHeightValue = compStateA.tabBarHeight :=
  (C7_tab_bar_height propsAB compStateA Option.none true 0 routeA infoA
      (fun _ => 0) { width := 0, height := 0 } { top := 0, right := 0, bottom := 0, left := 0 }
      0 rfl rfl).1 rfl

/-- A partial `safeAreaInsets` prop defining only top and bottom. -/
def propInsets : PartialInsets :=
  { top := some 5, right := Option.none, bottom := some 7, left := Option.none }

/-- A context insets value defining top and right. -/
def ctxInsets : PartialInsets :=
  { top := some 11, right := some 13, bottom := Option.none, left := Option.none }

/-- Sample props over `stateAB` with a partial `safeAreaInsets` prop. -/
def propsInsets : Props :=
  { state := stateAB, descriptors := fun _ => emptyOptions,
    safeAreaInsets := some propInsets, detachInactiveScreens := Option.none }

/-- C8: each inset side handed to the tab bar is the `safeAreaInsets` prop
side when defined, else the context side when defined, else `0` — for every
combination of defined and undefined values. -/
theorem C8_insets_precedence (props : Props) (s : ComponentState)
    (ctx : Option PartialInsets) (dd : Bool) :
    ((∀ v, props.safeAreaInsets.bind PartialInsets.top = some v →
        (renderBottomTabView props s ctx dd).tabBarInsets.top = v)
      ∧ (props.safeAreaInsets.bind PartialInsets.top = Option.none →
          (∀ w, ctx.bind PartialInsets.top = some w →
            (renderBottomTabView props s ctx dd).tabBarInsets.top = w)
          ∧ (ctx.bind PartialInsets.top = Option.none →
            (renderBottomTabView props s ctx dd).tabBarInsets.top = 0)))
    ∧ ((∀ v, props.safeAreaInsets.bind PartialInsets.right = some v →
        (renderBottomTabView props s ctx dd).tabBarInsets.right = v)
      ∧ (props.safeAreaInsets.bind PartialInsets.right = Option.none →
          (∀ w, ctx.bind PartialInsets.right = some w →
            (renderBottomTabView props s ctx dd).tabBarInsets.right = w)
          ∧ (ctx.bind PartialInsets.right = Option.none →
            (renderBottomTabView props s ctx dd).tabBarInsets.right = 0)))
    ∧ ((∀ v, props.safeAreaInsets.bind PartialInsets.bottom = some v →
        (renderBottomTabView props s ctx dd).tabBarInsets.bottom = v)
      ∧ (props.safeAreaInsets.bind PartialInsets.bottom = Option.none →
          (∀ w, ctx.bind PartialInsets.bottom = some w →
            (renderBottomTabView props s ctx dd).tabBarInsets.bottom = w)
          ∧ (ctx.bind PartialInsets.bottom = Option.none →
            (renderBottomTabView props s ctx dd).tabBarInsets.bottom = 0)))
    ∧ ((∀ v, props.safeAreaInsets.bind PartialInsets.left = some v →
        (renderBottomTabView props s ctx dd).tabBarInsets.left = v)
      ∧ (props.safeAreaInsets.bind PartialInsets.left = Option.none →
          (∀ w, ctx.bind PartialInsets.left = some w →
            (renderBottomTabView props s ctx dd).tabBarInsets.left = w)
          ∧ (ctx.bind PartialInsets.left = Option.none →
            (renderBottomTabView props s ctx dd).tabBarInsets.left = 0))) := by
  refine ⟨⟨?_, fun h => ⟨?_, ?_⟩⟩, ⟨?_, fun h => ⟨?_, ?_⟩⟩,
    ⟨?_, fun h => ⟨?_, ?_⟩⟩, ⟨?_, fun h => ⟨?_, ?_⟩⟩⟩ <;>
      first
        | (intro v hv; simp [renderBottomTabView, resolveInsets, h, hv])
        | (intro v hv; simp [renderBottomTabView, resolveInsets, hv])
        | (intro h2; simp [renderBottomTabView, resolveInsets, h, h2])

/-- Witness for C8: the prop top inset `5` wins over the context top inset
`11`; the context right inset `13` fills in for the undefined prop side. -/
theorem C8_insets_precedence_witness :
    (renderBottomTabView propsInsets compStateA (some ctxInsets) true).tabBarInsets.top = 5
    ∧ (renderBottomTabView propsInsets compStateA (some ctxInsets) true).tabBarInsets.right
      = 13 :=
  ⟨(C8_insets_precedence propsInsets compStateA (some ctxInsets) true).1.1 5 rfl,
    ((C8_insets_precedence propsInsets compStateA (some ctxInsets) true).2.1.2 rfl).1 13 rfl⟩

end BottomTabs
